import Mathlib

/-!
Verification of the PassCard pass-generation pipeline
(`src/FlaskServer/pass_generator.py`) against its specification.

The Python code is shallowly embedded:

* a ticket is a loosely-typed mapping; we model it as an association list
  from field name to string value (`dict.get`, truthiness of strings, and
  `a or b` chains are modelled explicitly);
* Python library calls that the pipeline merely invokes (`hashlib.sha1`,
  `base64.b64decode`, `json.dumps`, PKCS7 signing, template-file reads)
  are parameters of an `Env` record; per-call nondeterminism
  (`secrets.token_hex(16)`, `datetime.now()`) is made explicit as the
  `token` and `now` components of that record;
* `datetime.fromisoformat`, `strftime`, `isoformat` and `int(s, 16)` are
  modelled concretely, faithful to CPython semantics on the input shapes
  the generator feeds them;
* a Python exception escaping a function is modelled by `Option.none`.
-/

namespace PassCard

/-- Raw byte content of a file, one `Nat` per byte. -/
abbrev Bytes := List Nat

/-- A caller-supplied ticket: association list from attribute name to
string value, unique keys (a Python dict). -/
abbrev Ticket := List (String × String)

/-- Model of `ticket.get(k)`: `some v` when the key is present, else `none`. -/
def pyGet (t : Ticket) (k : String) : Option String :=
  t.lookup k

/-- Model of `ticket.get(k, d)`: the stored value when the key is present
(even if empty), else the default. -/
def pyGetD (t : Ticket) (k d : String) : String :=
  (pyGet t k).getD d

/-- Model of the Python truthiness test `if ticket.get(k):` — returns the
value when the key is present with a non-empty string, else `none`
(absent keys give `None`, and the empty string is falsy). -/
def truthy (t : Ticket) (k : String) : Option String :=
  match pyGet t k with
  | some s => if s = "" then none else some s
  | none => none

/-- Truthiness of an optional string (e.g. `pass_config.get('webServiceURL')`,
`images.get('icon')`): `None` and the empty string are falsy. -/
def truthyO (o : Option String) : Option String :=
  match o with
  | some s => if s = "" then none else some s
  | none => none

/-- Model of the Python expression `a or b` where `a` is
`ticket.get(k)` (so `None` or a string) and `b` is a string: returns `a`
when truthy, else `b`. -/
def pyOrS (a : Option String) (b : String) : String :=
  match a with
  | some s => if s = "" then b else s
  | none => b

/-! ### Model of the `datetime` library calls used by the generator

`datetime.fromisoformat` accepts strings of the shape
`YYYY-MM-DD[*HH[:MM[:SS[.fff[fff]]]][±HH:MM]]` (any single separator
character `*`), validating all components; anything else raises
`ValueError`.  The model covers exactly those shapes (UTC-offset seconds,
which the generator never produces, are not modelled). -/

/-- Decimal digit value of a character, `none` for a non-digit. -/
def digitVal (c : Char) : Option Nat :=
  if 48 ≤ c.toNat ∧ c.toNat ≤ 57 then some (c.toNat - 48) else none

/-- Two decimal digits to a number. -/
def two (a b : Char) : Option Nat := do
  let x ← digitVal a
  let y ← digitVal b
  pure (10 * x + y)

/-- Four decimal digits to a number. -/
def four (a b c d : Char) : Option Nat := do
  let x ← two a b
  let y ← two c d
  pure (100 * x + y)

/-- Gregorian leap-year test, as in Python's `calendar.isleap`. -/
def isLeap (y : Nat) : Bool :=
  y % 4 = 0 ∧ (y % 100 ≠ 0 ∨ y % 400 = 0)

/-- Days in a month, used by `fromisoformat`'s day-of-month validation. -/
def daysInMonth (y m : Nat) : Nat :=
  if m = 2 then (if isLeap y then 29 else 28)
  else if m = 4 ∨ m = 6 ∨ m = 9 ∨ m = 11 then 30
  else 31

/-- A parsed `datetime.datetime` value: calendar fields, microseconds and
an optional UTC offset in minutes. -/
structure PyDateTime where
  year : Nat
  month : Nat
  day : Nat
  hour : Nat
  minute : Nat
  second : Nat
  micro : Nat
  offMinutes : Option Int
deriving DecidableEq

/-- Parse the fractional-seconds part after the dot: exactly 3 or 6
digits (as accepted by `fromisoformat`), returning microseconds and the
remaining characters. -/
def parseFrac (cs : List Char) : Option (Nat × List Char) :=
  let ds := cs.takeWhile (fun c => (digitVal c).isSome)
  let rest := cs.dropWhile (fun c => (digitVal c).isSome)
  let val := ds.foldl (fun acc c => 10 * acc + ((digitVal c).getD 0)) 0
  if ds.length = 3 then some (1000 * val, rest)
  else if ds.length = 6 then some (val, rest)
  else none

/-- Parse an optional trailing UTC offset `±HH:MM` (total below 24 hours),
`some none` when the input is exhausted. -/
def parseOff : List Char → Option (Option Int)
  | [] => some none
  | c :: rest =>
    if c = '+' ∨ c = '-' then
      match rest with
      | [h1, h2, ':', m1, m2] => do
        let h ← two h1 h2
        let m ← two m1 m2
        let total := 60 * h + m
        if total < 24 * 60 then
          pure (some (if c = '-' then -(total : Int) else (total : Int)))
        else none
      | _ => none
    else none

/-- Parse the time-of-day part `HH[:MM[:SS[.frac]]]` followed by an
optional offset. -/
def parseHMS (cs : List Char) : Option (Nat × Nat × Nat × Nat × Option Int) :=
  match cs with
  | h1 :: h2 :: rest => do
    let h ← two h1 h2
    match rest with
    | [] => pure (h, 0, 0, 0, none)
    | ':' :: m1 :: m2 :: rest2 => do
      let m ← two m1 m2
      match rest2 with
      | [] => pure (h, m, 0, 0, none)
      | ':' :: s1 :: s2 :: rest3 => do
        let sec ← two s1 s2
        match rest3 with
        | '.' :: rest4 => do
          let (mic, rest5) ← parseFrac rest4
          let off ← parseOff rest5
          pure (h, m, sec, mic, off)
        | _ => do
          let off ← parseOff rest3
          pure (h, m, sec, 0, off)
      | _ => do
        let off ← parseOff rest2
        pure (h, m, 0, 0, off)
    | _ => do
      let off ← parseOff rest
      pure (h, 0, 0, 0, off)
  | _ => none

/-- Range-validate parsed components and build the datetime, mirroring
the `ValueError`s raised by the `datetime` constructor. -/
def mkdt (y mo d h mi sec mic : Nat) (off : Option Int) : Option PyDateTime :=
  if 1 ≤ y ∧ 1 ≤ mo ∧ mo ≤ 12 ∧ 1 ≤ d ∧ d ≤ daysInMonth y mo
      ∧ h ≤ 23 ∧ mi ≤ 59 ∧ sec ≤ 59 then
    some ⟨y, mo, d, h, mi, sec, mic, off⟩
  else none

/-- Model of `datetime.fromisoformat`: `none` models a raised
`ValueError`. -/
def fromisoformat (s : String) : Option PyDateTime :=
  match s.toList with
  | [y1, y2, y3, y4, '-', mo1, mo2, '-', d1, d2] => do
    let y ← four y1 y2 y3 y4
    let mo ← two mo1 mo2
    let d ← two d1 d2
    mkdt y mo d 0 0 0 0 none
  | y1 :: y2 :: y3 :: y4 :: '-' :: mo1 :: mo2 :: '-' :: d1 :: d2 :: _sep :: rest => do
    let y ← four y1 y2 y3 y4
    let mo ← two mo1 mo2
    let d ← two d1 d2
    let (h, mi, sec, mic, off) ← parseHMS rest
    mkdt y mo d h mi sec mic off
  | _ => none

/-- Zero-pad a number to two digits, as `%02d`. -/
def pad2 (n : Nat) : String :=
  if n < 10 then "0" ++ toString n else toString n

/-- Zero-pad a number to four digits, as the year in `isoformat`. -/
def pad4 (n : Nat) : String :=
  if n < 10 then "000" ++ toString n
  else if n < 100 then "00" ++ toString n
  else if n < 1000 then "0" ++ toString n
  else toString n

/-- Zero-pad a number to six digits (microseconds in `isoformat`). -/
def pad6 (n : Nat) : String :=
  if n < 10 then "00000" ++ toString n
  else if n < 100 then "0000" ++ toString n
  else if n < 1000 then "000" ++ toString n
  else if n < 10000 then "00" ++ toString n
  else if n < 100000 then "0" ++ toString n
  else toString n

/-- Month abbreviations produced by `strftime('%b')` in the C locale. -/
def monthAbbrev (m : Nat) : String :=
  (["Jan", "Feb", "Mar", "Apr", "May", "Jun",
    "Jul", "Aug", "Sep", "Oct", "Nov", "Dec"]).getD (m - 1) ""

/-- Model of `datetime.isoformat()`. -/
def isoformat (dt : PyDateTime) : String :=
  pad4 dt.year ++ "-" ++ pad2 dt.month ++ "-" ++ pad2 dt.day ++ "T"
    ++ pad2 dt.hour ++ ":" ++ pad2 dt.minute ++ ":" ++ pad2 dt.second
    ++ (if dt.micro ≠ 0 then "." ++ pad6 dt.micro else "")
    ++ (match dt.offMinutes with
        | none => ""
        | some o =>
          (if o < 0 then "-" else "+")
            ++ pad2 (o.natAbs / 60) ++ ":" ++ pad2 (o.natAbs % 60))

/-- Model of `date_string.replace('Z', '+00:00')`: every occurrence of
the single-character pattern `Z` becomes `+00:00`. -/
def replaceZ (s : String) : String :=
  ⟨s.toList.foldr
    (fun c acc => if c = 'Z' then '+' :: '0' :: '0' :: ':' :: '0' :: '0' :: acc else c :: acc)
    []⟩

/-- `PassGenerator.format_date` (lines 527-533): `strftime('%b %d, %Y')`
on success, the input unchanged when parsing fails (bare `except`). -/
def format_date (date_string : String) : String :=
  match fromisoformat (replaceZ date_string) with
  | some dt => monthAbbrev dt.month ++ " " ++ pad2 dt.day ++ ", " ++ toString dt.year
  | none => date_string

/-- `PassGenerator.format_time` (lines 535-541): `strftime('%H:%M')` on
success, the input unchanged on failure. -/
def format_time (time_string : String) : String :=
  match fromisoformat (replaceZ time_string) with
  | some dt => pad2 dt.hour ++ ":" ++ pad2 dt.minute
  | none => time_string

/-- `PassGenerator.format_datetime` (lines 543-549): `strftime('%b %d, %H:%M')`
on success, the input unchanged on failure. -/
def format_datetime (date_string : String) : String :=
  match fromisoformat (replaceZ date_string) with
  | some dt => monthAbbrev dt.month ++ " " ++ pad2 dt.day ++ ", " ++ pad2 dt.hour ++ ":" ++ pad2 dt.minute
  | none => date_string

/-- `PassGenerator.to_iso_date` (lines 551-557): the parsed datetime's
`isoformat()` on success, and `datetime.now().isoformat()` — the explicit
`now` argument of the model — when parsing fails. -/
def to_iso_date (now : String) (date_string : String) : String :=
  match fromisoformat (replaceZ date_string) with
  | some dt => isoformat dt
  | none => now

/-! ### Model of `int(s, 16)` and `hex_to_rgb` -/

/-- Hexadecimal digit value of a character, `none` for a non-hex-digit. -/
def hexDigitVal (c : Char) : Option Nat :=
  if 48 ≤ c.toNat ∧ c.toNat ≤ 57 then some (c.toNat - 48)
  else if 97 ≤ c.toNat ∧ c.toNat ≤ 102 then some (c.toNat - 87)
  else if 65 ≤ c.toNat ∧ c.toNat ≤ 70 then some (c.toNat - 55)
  else none

/-- Accumulate further hex digits, allowing a single underscore between
digits as `int` does. -/
def hexDigitsVal : Nat → List Char → Option Nat
  | acc, [] => some acc
  | acc, c :: rest =>
    if c = '_' then
      match rest with
      | c2 :: rest2 =>
        match hexDigitVal c2 with
        | some v => hexDigitsVal (16 * acc + v) rest2
        | none => none
      | [] => none
    else
      match hexDigitVal c with
      | some v => hexDigitsVal (16 * acc + v) rest
      | none => none

/-- A non-empty hex-digit run (underscores only between digits). -/
def startHexDigits (cs : List Char) : Option Nat :=
  match cs with
  | [] => none
  | c :: rest =>
    match hexDigitVal c with
    | some v => hexDigitsVal v rest
    | none => none

/-- The digits of an `int(s, 16)` literal after sign stripping: an
optional `0x`/`0X` prefix (optionally followed by one underscore), then
hex digits. -/
def parseHexBody (cs : List Char) : Option Nat :=
  match cs with
  | c0 :: c :: rest =>
    if c0 = '0' ∧ (c = 'x' ∨ c = 'X') then
      match rest with
      | r :: rest2 => if r = '_' then startHexDigits rest2 else startHexDigits rest
      | [] => startHexDigits []
    else startHexDigits cs
  | _ => startHexDigits cs

/-- Model of Python `int(s, 16)`: strip surrounding whitespace, accept an
optional sign, an optional `0x` prefix and underscore-separated hex
digits; `none` models a raised `ValueError`. -/
def pyIntHex (s : String) : Option Int :=
  let cs := ((s.toList.dropWhile Char.isWhitespace).reverse.dropWhile Char.isWhitespace).reverse
  match cs with
  | c :: rest =>
    if c = '+' then (parseHexBody rest).map (fun n => (n : Int))
    else if c = '-' then (parseHexBody rest).map (fun n => -(n : Int))
    else (parseHexBody (c :: rest)).map (fun n => (n : Int))
  | [] => (parseHexBody []).map (fun n => (n : Int))

/-- The remainder of the colour string after `hex_color.lstrip('#')`,
which strips every leading `#`. -/
def stripHash (s : String) : List Char :=
  s.toList.dropWhile (fun c => c = '#')

/-- `PassGenerator.hex_to_rgb` (lines 519-525).  When the stripped string
has length 6 the three byte pairs go through `int(_, 16)` — which raises
(`none`) on non-hex content, there is no `try` around it; any other
length returns the fallback string. -/
def hex_to_rgb (hex_color : String) : Option String :=
  let h := stripHash hex_color
  if h.length = 6 then
    match pyIntHex ⟨h.take 2⟩, pyIntHex ⟨(h.drop 2).take 2⟩, pyIntHex ⟨h.drop 4⟩ with
    | some r, some g, some b =>
      some ("rgb(" ++ toString r ++ ", " ++ toString g ++ ", " ++ toString b ++ ")")
    | _, _, _ => none
  else some "rgb(0, 0, 0)"

/-! ### Field-layout generators -/

/-- One pass field: the `{'key':…, 'label':…, 'value':…}` dicts appended
to the field groups. -/
structure Field where
  key : String
  label : String
  value : String
deriving DecidableEq

/-- The content block built by `generate_pass_content` (lines 110-116):
the five field groups, plus the `transitType` marker that
`generate_boarding_pass_content` inserts. -/
structure PassContent where
  transitType : Option String
  headerFields : List Field
  primaryFields : List Field
  secondaryFields : List Field
  auxiliaryFields : List Field
  backFields : List Field
deriving DecidableEq

/-- The fresh content dict of lines 110-116: all groups empty. -/
def baseContent : PassContent :=
  ⟨none, [], [], [], [], []⟩

/-- Static pass configuration (`PASS_CONFIG` in `app.py`): the web-service
URL comes from an environment variable and may be unset (`None`). -/
structure PassConfig where
  passTypeIdentifier : String
  teamIdentifier : String
  organizationName : String
  webServiceURL : Option String
deriving DecidableEq

/-- `PassGenerator.add_back_fields` (lines 373-399). -/
def add_back_fields (cfg : PassConfig) (content : PassContent) (ticket : Ticket) : PassContent :=
  let content := { content with backFields := content.backFields ++
    ([⟨"organization", "Issued by", pyGetD ticket "organizationName" cfg.organizationName⟩] : List Field) }
  let content :=
    match truthy ticket "venueAddress" with
    | some v => { content with backFields := content.backFields ++ ([⟨"address", "Address", v⟩] : List Field) }
    | none => content
  let content :=
    match truthy ticket "description" with
    | some v => { content with backFields := content.backFields ++ ([⟨"description", "Description", v⟩] : List Field) }
    | none => content
  { content with backFields := content.backFields ++ ([⟨"generated", "Generated by", "PassCard App"⟩] : List Field) }

/-- `PassGenerator.generate_event_ticket_content` (lines 129-185). -/
def generate_event_ticket_content (cfg : PassConfig) (ticket : Ticket) (content : PassContent) : PassContent :=
  let content :=
    match truthy ticket "eventTime" with
    | some v => { content with headerFields := content.headerFields ++ ([⟨"time", "TIME", format_time v⟩] : List Field) }
    | none => content
  let content := { content with primaryFields := content.primaryFields ++
    ([⟨"event", "EVENT", pyGetD ticket "eventName" "Event"⟩] : List Field) }
  let content :=
    match truthy ticket "venueName" with
    | some v => { content with secondaryFields := content.secondaryFields ++ ([⟨"venue", "VENUE", v⟩] : List Field) }
    | none => content
  let content :=
    match truthy ticket "eventDate" with
    | some v => { content with secondaryFields := content.secondaryFields ++ ([⟨"date", "DATE", format_date v⟩] : List Field) }
    | none => content
  let seat_parts :=
    (match truthy ticket "seatSection" with | some v => ["Sec " ++ v] | none => [])
      ++ (match truthy ticket "seatRow" with | some v => ["Row " ++ v] | none => [])
      ++ (match truthy ticket "seatNumber" with | some v => ["Seat " ++ v] | none => [])
  let content :=
    if seat_parts ≠ [] then
      { content with auxiliaryFields := content.auxiliaryFields ++
        ([⟨"seat", "SEAT", String.intercalate ", " seat_parts⟩] : List Field) }
    else content
  let content :=
    match truthy ticket "ticketHolder" with
    | some v => { content with auxiliaryFields := content.auxiliaryFields ++ ([⟨"holder", "ATTENDEE", v⟩] : List Field) }
    | none => content
  add_back_fields cfg content ticket

/-- `PassGenerator.generate_boarding_pass_content` (lines 187-265). -/
def generate_boarding_pass_content (cfg : PassConfig) (ticket : Ticket) (content : PassContent) : PassContent :=
  let content := { content with transitType := some "PKTransitTypeAir" }
  let content :=
    match truthy ticket "gate" with
    | some v => { content with headerFields := content.headerFields ++ ([⟨"gate", "GATE", v⟩] : List Field) }
    | none => content
  let content := { content with primaryFields := content.primaryFields ++
    ([⟨"origin", pyGetD ticket "originCity" "FROM", pyGetD ticket "originCode" "---"⟩] : List Field) }
  let content := { content with primaryFields := content.primaryFields ++
    ([⟨"destination", pyGetD ticket "destinationCity" "TO", pyGetD ticket "destinationCode" "---"⟩] : List Field) }
  let content :=
    match truthy ticket "passengerName" with
    | some v => { content with secondaryFields := content.secondaryFields ++ ([⟨"passenger", "PASSENGER", v⟩] : List Field) }
    | none => content
  let content :=
    match truthy ticket "departureTime" with
    | some v => { content with secondaryFields := content.secondaryFields ++ ([⟨"departure", "DEPARTS", format_datetime v⟩] : List Field) }
    | none => content
  let content :=
    match truthy ticket "flightNumber" with
    | some v => { content with auxiliaryFields := content.auxiliaryFields ++ ([⟨"flight", "FLIGHT", v⟩] : List Field) }
    | none => content
  let content :=
    match truthy ticket "seatNumber" with
    | some v => { content with auxiliaryFields := content.auxiliaryFields ++ ([⟨"seat", "SEAT", v⟩] : List Field) }
    | none => content
  let content :=
    match truthy ticket "seatClass" with
    | some v => { content with auxiliaryFields := content.auxiliaryFields ++ ([⟨"class", "CLASS", v⟩] : List Field) }
    | none => content
  let content :=
    match truthy ticket "boardingGroup" with
    | some v => { content with auxiliaryFields := content.auxiliaryFields ++ ([⟨"group", "GROUP", v⟩] : List Field) }
    | none => content
  let content :=
    match truthy ticket "confirmationCode" with
    | some v => { content with backFields := content.backFields ++ ([⟨"confirmation", "Confirmation Code", v⟩] : List Field) }
    | none => content
  add_back_fields cfg content ticket

/-- `PassGenerator.generate_coupon_content` (lines 267-308).  Note the
secondary `title` entry is gated only on both `couponTitle` and
`discountAmount` being truthy — there is no distinctness check. -/
def generate_coupon_content (cfg : PassConfig) (ticket : Ticket) (content : PassContent) : PassContent :=
  let content := { content with primaryFields := content.primaryFields ++
    ([⟨"offer", pyGetD ticket "storeName" "OFFER",
      pyOrS (pyGet ticket "discountAmount") (pyOrS (pyGet ticket "couponTitle") "Special Offer")⟩] : List Field) }
  let content :=
    match truthy ticket "couponTitle", truthy ticket "discountAmount" with
    | some ct, some _ => { content with secondaryFields := content.secondaryFields ++ ([⟨"title", "PROMOTION", ct⟩] : List Field) }
    | _, _ => content
  let content :=
    match truthy ticket "promoCode" with
    | some v => { content with secondaryFields := content.secondaryFields ++ ([⟨"code", "CODE", v⟩] : List Field) }
    | none => content
  let content :=
    match truthy ticket "expirationDate" with
    | some v => { content with auxiliaryFields := content.auxiliaryFields ++ ([⟨"expires", "VALID UNTIL", format_date v⟩] : List Field) }
    | none => content
  let content :=
    match truthy ticket "termsAndConditions" with
    | some v => { content with backFields := content.backFields ++ ([⟨"terms", "Terms & Conditions", v⟩] : List Field) }
    | none => content
  add_back_fields cfg content ticket

/-- `PassGenerator.generate_store_card_content` (lines 310-350). -/
def generate_store_card_content (cfg : PassConfig) (ticket : Ticket) (content : PassContent) : PassContent :=
  let content :=
    match truthy ticket "pointsBalance" with
    | some v => { content with primaryFields := content.primaryFields ++ ([⟨"balance", "POINTS", v⟩] : List Field) }
    | none => { content with primaryFields := content.primaryFields ++
        ([⟨"member", "MEMBER", pyGetD ticket "cardholderName" "Member"⟩] : List Field) }
  let content :=
    match truthy ticket "membershipLevel" with
    | some v => { content with secondaryFields := content.secondaryFields ++ ([⟨"level", "LEVEL", v⟩] : List Field) }
    | none => content
  let content :=
    match truthy ticket "cardholderName", truthy ticket "pointsBalance" with
    | some name, some _ => { content with secondaryFields := content.secondaryFields ++ ([⟨"name", "NAME", name⟩] : List Field) }
    | _, _ => content
  let content :=
    match truthy ticket "memberSince" with
    | some v => { content with auxiliaryFields := content.auxiliaryFields ++ ([⟨"since", "MEMBER SINCE", format_date v⟩] : List Field) }
    | none => content
  add_back_fields cfg content ticket

/-- `PassGenerator.generate_generic_content` (lines 352-371). -/
def generate_generic_content (cfg : PassConfig) (ticket : Ticket) (content : PassContent) : PassContent :=
  let content :=
    match truthy ticket "primaryValue" with
    | some v => { content with primaryFields := content.primaryFields ++
        ([⟨"primary", pyGetD ticket "primaryLabel" "", v⟩] : List Field) }
    | none => content
  let content :=
    match truthy ticket "secondaryValue" with
    | some v => { content with secondaryFields := content.secondaryFields ++
        ([⟨"secondary", pyGetD ticket "secondaryLabel" "", v⟩] : List Field) }
    | none => content
  add_back_fields cfg content ticket

/-- `PassGenerator.generate_pass_content` (lines 108-127): the
`generators` dict lookup with `generate_event_ticket_content` as the
default for unknown types, applied to the fresh content dict. -/
def generate_pass_content (cfg : PassConfig) (ticket : Ticket) (ticket_type : String) : PassContent :=
  if ticket_type = "eventTicket" then generate_event_ticket_content cfg ticket baseContent
  else if ticket_type = "boardingPass" then generate_boarding_pass_content cfg ticket baseContent
  else if ticket_type = "coupon" then generate_coupon_content cfg ticket baseContent
  else if ticket_type = "storeCard" then generate_store_card_content cfg ticket baseContent
  else if ticket_type = "generic" then generate_generic_content cfg ticket baseContent
  else generate_event_ticket_content cfg ticket baseContent

/-! ### The `pass.json` dictionary -/

/-- A value stored in the top-level `pass_json` dict: strings, the
`formatVersion` number, the one-element `barcodes` list (format, message,
encoding), or a type-keyed content block. -/
inductive PassVal where
  | str (s : String)
  | num (n : Nat)
  | barcode (format message messageEncoding : String)
  | content (c : PassContent)
deriving DecidableEq

/-- The `pass_json` dict: association list in insertion order. -/
abbrev PassJson := List (String × PassVal)

/-- Python dict assignment `d[k] = v`: replace the value in place when the
key exists (keeping its position, as CPython does), else append. -/
def dictSet : PassJson → String → PassVal → PassJson
  | [], k, v => [(k, v)]
  | (k', v') :: rest, k, v =>
    if k' = k then (k, v) :: rest else (k', v') :: dictSet rest k v

/-- Remove every binding of a key (used to compare descriptors modulo the
`authenticationToken` entry). -/
def removeKey (k : String) (d : PassJson) : PassJson :=
  d.filter (fun p => p.1 ≠ k)

/-- The dict literal of lines 64-81 of `generate_pass_json`, with the
three already-converted colour strings. -/
def pass_json_base (cfg : PassConfig) (ticket : Ticket) (serial : String)
    (bg fg lc : String) : PassJson :=
  [("formatVersion", .num 1),
   ("passTypeIdentifier", .str cfg.passTypeIdentifier),
   ("teamIdentifier", .str cfg.teamIdentifier),
   ("serialNumber", .str serial),
   ("organizationName", .str (pyGetD ticket "organizationName" cfg.organizationName)),
   ("description", .str (pyOrS (pyGet ticket "description") (pyOrS (pyGet ticket "eventName") "Pass"))),
   ("backgroundColor", .str bg),
   ("foregroundColor", .str fg),
   ("labelColor", .str lc),
   ("barcodes", .barcode (pyGetD ticket "barcodeFormat" "PKBarcodeFormatQR")
      (pyGetD ticket "barcodeMessage" serial) "iso-8859-1")]

/-- Lines 83-85: optional `logoText` entry. -/
def add_logo_text (ticket : Ticket) (pj : PassJson) : PassJson :=
  match truthy ticket "logoText" with
  | some v => dictSet pj "logoText" (.str v)
  | none => pj

/-- Lines 87-90: when a web-service URL is configured, emit it together
with the per-call random authentication token (`secrets.token_hex(16)`,
the explicit `token` argument of the model). -/
def add_web_service (cfg : PassConfig) (token : String) (pj : PassJson) : PassJson :=
  match truthyO cfg.webServiceURL with
  | some url => dictSet (dictSet pj "webServiceURL" (.str url)) "authenticationToken" (.str token)
  | none => pj

/-- Lines 92-94: the type-keyed content block,
`pass_json[ticket_type] = self.generate_pass_content(...)`. -/
def add_content (cfg : PassConfig) (ticket : Ticket) (pj : PassJson) : PassJson :=
  let ticket_type := pyGetD ticket "ticketType" "eventTicket"
  dictSet pj ticket_type (.content (generate_pass_content cfg ticket ticket_type))

/-- Lines 96-104: `relevantDate` for event tickets and boarding passes,
`expirationDate` for coupons. -/
def add_dates (ticket : Ticket) (now : String) (pj : PassJson) : PassJson :=
  let ticket_type := pyGetD ticket "ticketType" "eventTicket"
  let pj :=
    if ticket_type = "eventTicket" ∧ (truthy ticket "eventDate").isSome then
      dictSet pj "relevantDate"
        (.str (pyOrS (pyGet ticket "isoDate") (to_iso_date now ((pyGet ticket "eventDate").getD ""))))
    else if ticket_type = "boardingPass" ∧ (truthy ticket "departureTime").isSome then
      dictSet pj "relevantDate" (.str (to_iso_date now ((pyGet ticket "departureTime").getD "")))
    else pj
  if ticket_type = "coupon" ∧ (truthy ticket "expirationDate").isSome then
    dictSet pj "expirationDate" (.str (to_iso_date now ((pyGet ticket "expirationDate").getD "")))
  else pj

/-- `PassGenerator.generate_pass_json` (lines 62-106).  The three colour
conversions are the only operations in it that can raise (see
`hex_to_rgb`); `none` models that exception. -/
def generate_pass_json (cfg : PassConfig) (token now : String)
    (ticket : Ticket) (serial : String) : Option PassJson :=
  match hex_to_rgb (pyGetD ticket "backgroundColor" "#1C1C1E"),
        hex_to_rgb (pyGetD ticket "foregroundColor" "#FFFFFF"),
        hex_to_rgb (pyGetD ticket "labelColor" "#8E8E93") with
  | some bg, some fg, some lc =>
    some (add_dates ticket now
      (add_content cfg ticket
        (add_web_service cfg token
          (add_logo_text ticket (pass_json_base cfg ticket serial bg fg lc)))))
  | _, _, _ => none

/-! ### Asset collection, manifest and bundle assembly -/

/-- Caller-supplied Base64 image payloads, keyed by role (absent roles
are `None` in the Python dict). -/
structure Images where
  icon : Option String
  logo : Option String
  background : Option String
  strip : Option String
  thumbnail : Option String

/-- The external collaborators of one generation call: the library
functions the pipeline invokes (`hashlib.sha1` hex digest,
`base64.b64decode`, `json.dumps(…, indent=2)` for the descriptor,
`json.dumps` for the manifest, PKCS7 signing together with certificate
loading), the optional template files on disk, and the per-call
nondeterminism (`secrets.token_hex(16)` and `datetime.now().isoformat()`).
`none` from `b64` or `sign` models a raised exception. -/
structure Env where
  token : String
  now : String
  sha1 : Bytes → String
  b64 : String → Option Bytes
  dumps : PassJson → Bytes
  dumpsManifest : List (String × String) → Bytes
  sign : Bytes → Option Bytes
  iconTemplate : Option Bytes
  logoTemplate : Option Bytes

/-- `PassGenerator.generate_placeholder_image` (lines 429-441): the
literal 84-byte transparent PNG. -/
def generate_placeholder_image : Bytes :=
  [0x89, 0x50, 0x4E, 0x47, 0x0D, 0x0A, 0x1A, 0x0A,
   0x00, 0x00, 0x00, 0x0D, 0x49, 0x48, 0x44, 0x52,
   0x00, 0x00, 0x00, 0x01, 0x00, 0x00, 0x00, 0x01,
   0x08, 0x02, 0x00, 0x00, 0x00, 0x90, 0x77, 0x53,
   0xDE, 0x00, 0x00, 0x00, 0x0C, 0x49, 0x44, 0x41,
   0x54, 0x08, 0xD7, 0x63, 0xF8, 0x00, 0x00, 0x00,
   0x01, 0x00, 0x01, 0x00, 0x05, 0xFE, 0xD4, 0xE7,
   0x00, 0x00, 0x00, 0x00, 0x49, 0x45, 0x4E, 0x44,
   0xAE, 0x42, 0x60, 0x82]

/-- Lines 453-468: icon resolution — caller payload, else template file,
else placeholder; both the 1x and 2x names get identical bytes. -/
def icon_files (env : Env) (images : Images) : Option (List (String × Bytes)) :=
  match truthyO images.icon with
  | some payload =>
    match env.b64 payload with
    | some icon_data => some [("icon.png", icon_data), ("icon@2x.png", icon_data)]
    | none => none
  | none =>
    match env.iconTemplate with
    | some icon_data => some [("icon.png", icon_data), ("icon@2x.png", icon_data)]
    | none => some [("icon.png", generate_placeholder_image), ("icon@2x.png", generate_placeholder_image)]

/-- Lines 470-481: logo resolution — caller payload, else template file,
else omitted entirely. -/
def logo_files (env : Env) (images : Images) : Option (List (String × Bytes)) :=
  match truthyO images.logo with
  | some payload =>
    match env.b64 payload with
    | some logo_data => some [("logo.png", logo_data), ("logo@2x.png", logo_data)]
    | none => none
  | none =>
    match env.logoTemplate with
    | some logo_data => some [("logo.png", logo_data), ("logo@2x.png", logo_data)]
    | none => some []

/-- Lines 486-489: background image, decoded only for `eventTicket`. -/
def background_files (env : Env) (ticket_type : String) (images : Images) : Option (List (String × Bytes)) :=
  if ticket_type = "eventTicket" then
    match truthyO images.background with
    | some payload => (env.b64 payload).map (fun d => [("background.png", d), ("background@2x.png", d)])
    | none => some []
  else some []

/-- Lines 491-494: strip image, decoded only for `coupon`/`storeCard`. -/
def strip_files (env : Env) (ticket_type : String) (images : Images) : Option (List (String × Bytes)) :=
  if ticket_type = "coupon" ∨ ticket_type = "storeCard" then
    match truthyO images.strip with
    | some payload => (env.b64 payload).map (fun d => [("strip.png", d), ("strip@2x.png", d)])
    | none => some []
  else some []

/-- Lines 496-499: thumbnail image for any type. -/
def thumbnail_files (env : Env) (images : Images) : Option (List (String × Bytes)) :=
  match truthyO images.thumbnail with
  | some payload => (env.b64 payload).map (fun d => [("thumbnail.png", d), ("thumbnail@2x.png", d)])
  | none => some []

/-- `PassGenerator.create_manifest` (lines 401-407): map every file to
the SHA-1 hex digest of its content. -/
def create_manifest (sha1 : Bytes → String) (files : List (String × Bytes)) : List (String × String) :=
  files.map (fun p => (p.1, sha1 p.2))

/-- `PassGenerator.generate_pass` (lines 443-516).  The result is the
bundle's file map in insertion order (the final ZIP write of lines
510-516 stores exactly these members under these names); `none` models a
raised exception aborting the call. -/
def generate_pass (cfg : PassConfig) (env : Env) (ticket : Ticket)
    (serial : String) (images : Images) : Option (List (String × Bytes)) :=
  match generate_pass_json cfg env.token env.now ticket serial with
  | none => none
  | some pass_json =>
    let ticket_type := pyGetD ticket "ticketType" "eventTicket"
    match icon_files env images, logo_files env images,
          background_files env ticket_type images,
          strip_files env ticket_type images,
          thumbnail_files env images with
    | some icons, some logos, some bgs, some strips, some thumbs =>
      let files := ("pass.json", env.dumps pass_json) :: (icons ++ logos ++ bgs ++ strips ++ thumbs)
      let manifest := create_manifest env.sha1 files
      let manifest_json := env.dumpsManifest manifest
      match env.sign manifest_json with
      | none => none
      | some signature =>
        some (files ++ [("manifest.json", manifest_json), ("signature", signature)])
    | _, _, _, _, _ => none

/-! ### Derived definitions used by the claim statements -/

/-- Is a `pass_json` value a type-keyed content block? -/
def isContent : PassVal → Bool
  | .content _ => true
  | _ => false

/-- The content-block entries of a descriptor, in order. -/
def contentEntries (d : PassJson) : PassJson :=
  d.filter (fun p => isContent p.2)

/-- The description value the spec prescribes for line 70: the ticket's
`description` when present and non-empty, else its `eventName` when
present and non-empty, else the literal `"Pass"`. -/
def expectedDescription (t : Ticket) : String :=
  match truthy t "description" with
  | some d => d
  | none =>
    match truthy t "eventName" with
    | some e => e
    | none => "Pass"

/-- A date string parses in `fromisoformat` after the `Z` replacement of
the formatter helpers. -/
def parsesIso (s : String) : Prop :=
  (fromisoformat (replaceZ s)).isSome = true

/-- The descriptor does not depend on the wall clock: whenever a field
flows into `to_iso_date` (lines 96-104), it parses, so the
`datetime.now()` fallback of line 557 is not taken. -/
def datesDeterministic (t : Ticket) : Prop :=
  (pyGetD t "ticketType" "eventTicket" = "eventTicket" →
    (truthy t "eventDate").isSome = true → truthy t "isoDate" = none →
    parsesIso ((pyGet t "eventDate").getD "")) ∧
  (pyGetD t "ticketType" "eventTicket" = "boardingPass" →
    (truthy t "departureTime").isSome = true →
    parsesIso ((pyGet t "departureTime").getD "")) ∧
  (pyGetD t "ticketType" "eventTicket" = "coupon" →
    (truthy t "expirationDate").isSome = true →
    parsesIso ((pyGet t "expirationDate").getD ""))

/-- The five ticket-type tags that have their own layout generator. -/
def knownTicketTypes : List String :=
  ["eventTicket", "boardingPass", "coupon", "storeCard", "generic"]

/-- The eleven file names the asset stages can produce, in bundle order. -/
def assetNameOrder : List String :=
  ["pass.json", "icon.png", "icon@2x.png", "logo.png", "logo@2x.png",
   "background.png", "background@2x.png", "strip.png", "strip@2x.png",
   "thumbnail.png", "thumbnail@2x.png"]

/-- A concrete pass configuration for witnesses: the defaults of
`PASS_CONFIG` in `app.py`, with no web-service URL configured. -/
def cfg0 : PassConfig :=
  ⟨"pass.com.needsomevibe.passcard", "XFL8CQ52JZ", "PassCard", none⟩

/-- The same configuration with a web-service URL configured. -/
def cfgWS : PassConfig :=
  ⟨"pass.com.needsomevibe.passcard", "XFL8CQ52JZ", "PassCard", some "https://example.com"⟩

/-- A concrete environment for witnesses: trivial but well-defined
library instantiations, no template files. -/
def env0 : Env :=
  ⟨"tok0", "2025-06-01T12:00:00", fun _ => "digest", fun _ => some [0],
   fun _ => [1], fun _ => [2], fun _ => some [3], none, none⟩

/-- An environment whose Base64 decoder rejects every payload. -/
def envRejectB64 : Env :=
  ⟨"tok0", "2025-06-01T12:00:00", fun _ => "digest", fun _ => none,
   fun _ => [1], fun _ => [2], fun _ => some [3], none, none⟩

/-- All-absent images. -/
def noImages : Images := ⟨none, none, none, none, none⟩

/-! ### Lemmas about the hex-colour parser -/

lemma hexDigitVal_range (c : Char) (v : Nat) (h : hexDigitVal c = some v) :
    (48 ≤ c.toNat ∧ c.toNat ≤ 57) ∨ (97 ≤ c.toNat ∧ c.toNat ≤ 102)
      ∨ (65 ≤ c.toNat ∧ c.toNat ≤ 70) := by
  unfold hexDigitVal at h
  split_ifs at h with h1 h2 h3
  · exact Or.inl h1
  · exact Or.inr (Or.inl h2)
  · exact Or.inr (Or.inr h3)

lemma hexDigitVal_ne (c : Char) (v : Nat) (h : hexDigitVal c = some v) (d : Char)
    (hd : d.toNat < 48 ∨ (57 < d.toNat ∧ d.toNat < 65) ∨ (70 < d.toNat ∧ d.toNat < 97)
      ∨ 102 < d.toNat) : c ≠ d := by
  intro he
  subst he
  rcases hexDigitVal_range c v h with ⟨a, b⟩ | ⟨a, b⟩ | ⟨a, b⟩ <;> omega

lemma hexDigitVal_not_ws (c : Char) (v : Nat) (h : hexDigitVal c = some v) :
    c.isWhitespace = false := by
  have h1 : c ≠ ' ' := hexDigitVal_ne c v h ' ' (by decide)
  have h2 : c ≠ '\t' := hexDigitVal_ne c v h '\t' (by decide)
  have h3 : c ≠ '\r' := hexDigitVal_ne c v h '\r' (by decide)
  have h4 : c ≠ '\n' := hexDigitVal_ne c v h '\n' (by decide)
  simp [Char.isWhitespace, h1, h2, h3, h4]

lemma hexDigitsVal_single (acc : Nat) (c : Char) (v : Nat) (h : hexDigitVal c = some v) :
    hexDigitsVal acc [c] = some (16 * acc + v) := by
  have hne : c ≠ '_' := hexDigitVal_ne c v h '_' (by decide)
  unfold hexDigitsVal
  rw [if_neg hne, h]
  rfl

lemma startHexDigits_pair (c1 c2 : Char) (v1 v2 : Nat)
    (h1 : hexDigitVal c1 = some v1) (h2 : hexDigitVal c2 = some v2) :
    startHexDigits [c1, c2] = some (16 * v1 + v2) := by
  simp only [startHexDigits]
  rw [h1]
  exact hexDigitsVal_single v1 c2 v2 h2

lemma pyIntHex_pair (c1 c2 : Char) (v1 v2 : Nat)
    (h1 : hexDigitVal c1 = some v1) (h2 : hexDigitVal c2 = some v2) :
    pyIntHex ⟨[c1, c2]⟩ = some ((16 * v1 + v2 : Nat) : Int) := by
  have hw1 := hexDigitVal_not_ws c1 v1 h1
  have hw2 := hexDigitVal_not_ws c2 v2 h2
  have hbody : parseHexBody [c1, c2] = some (16 * v1 + v2) := by
    have hx : ¬(c1 = '0' ∧ (c2 = 'x' ∨ c2 = 'X')) := by
      rintro ⟨-, he | he⟩ <;> exact absurd he (hexDigitVal_ne c2 v2 h2 _ (by decide))
    simp only [parseHexBody]
    rw [if_neg hx]
    exact startHexDigits_pair c1 c2 v1 v2 h1 h2
  have hstrip :
      ((String.toList ⟨[c1, c2]⟩ |>.dropWhile Char.isWhitespace).reverse.dropWhile
          Char.isWhitespace).reverse = [c1, c2] := by
    simp [String.toList, List.dropWhile, hw1, hw2]
  have hne1 : c1 ≠ '+' := hexDigitVal_ne c1 v1 h1 '+' (by decide)
  have hne2 : c1 ≠ '-' := hexDigitVal_ne c1 v1 h1 '-' (by decide)
  simp only [pyIntHex]
  rw [hstrip]
  dsimp only
  rw [if_neg hne1, if_neg hne2, hbody]
  rfl

/-! ## Claim C4 -/

/-- Counterexample to claim C4 as stated: C4 asserts `hex_to_rgb` never
raises on any string input, but `"zzzzzz"` has length 6 after stripping
and its pairs fail `int(_, 16)`, so line 523 raises `ValueError`
(modelled by `none`). -/
theorem C4_counterexample : hex_to_rgb "zzzzzz" = none := by decide

/-- Claim C4 (amended): for every string input, if the remainder after
stripping the leading `#` characters is six hex digits the result is
`rgb(r, g, b)` with the correctly decoded byte values; for a remainder of
any other length the result is exactly `rgb(0, 0, 0)`; but a length-6
remainder whose two-character slices are not accepted by `int(_, 16)`
makes `hex_to_rgb` raise `ValueError` instead of returning. -/
theorem C4_hex_to_rgb_characterization (s : String) :
    ((stripHash s).length ≠ 6 → hex_to_rgb s = some "rgb(0, 0, 0)") ∧
    (∀ c1 c2 c3 c4 c5 c6 v1 v2 v3 v4 v5 v6,
      stripHash s = [c1, c2, c3, c4, c5, c6] →
      hexDigitVal c1 = some v1 → hexDigitVal c2 = some v2 →
      hexDigitVal c3 = some v3 → hexDigitVal c4 = some v4 →
      hexDigitVal c5 = some v5 → hexDigitVal c6 = some v6 →
      hex_to_rgb s = some ("rgb(" ++ toString ((16 * v1 + v2 : Nat) : Int) ++ ", "
        ++ toString ((16 * v3 + v4 : Nat) : Int) ++ ", "
        ++ toString ((16 * v5 + v6 : Nat) : Int) ++ ")")) ∧
    ((stripHash s).length = 6 →
      ((pyIntHex ⟨(stripHash s).take 2⟩).isNone
        ∨ (pyIntHex ⟨((stripHash s).drop 2).take 2⟩).isNone
        ∨ (pyIntHex ⟨(stripHash s).drop 4⟩).isNone) →
      hex_to_rgb s = none) := by
  refine ⟨?_, ?_, ?_⟩
  · intro hlen
    simp only [hex_to_rgb]
    rw [if_neg hlen]
  · intro c1 c2 c3 c4 c5 c6 v1 v2 v3 v4 v5 v6 hstrip h1 h2 h3 h4 h5 h6
    simp only [hex_to_rgb]
    rw [hstrip]
    have ht1 : ([c1, c2, c3, c4, c5, c6].take 2) = [c1, c2] := rfl
    have ht2 : (([c1, c2, c3, c4, c5, c6].drop 2).take 2) = [c3, c4] := rfl
    have ht3 : ([c1, c2, c3, c4, c5, c6].drop 4) = [c5, c6] := rfl
    rw [if_pos (show ([c1, c2, c3, c4, c5, c6] : List Char).length = 6 from rfl), ht1, ht2, ht3,
      pyIntHex_pair c1 c2 v1 v2 h1 h2,
      pyIntHex_pair c3 c4 v3 v4 h3 h4,
      pyIntHex_pair c5 c6 v5 v6 h5 h6]
  · intro hlen hdis
    simp only [hex_to_rgb]
    rw [if_pos hlen]
    cases hA : pyIntHex ⟨(stripHash s).take 2⟩ <;>
      cases hB : pyIntHex ⟨((stripHash s).drop 2).take 2⟩ <;>
        cases hC : pyIntHex ⟨(stripHash s).drop 4⟩ <;>
          simp_all

/-- Witness for the amended C4: a valid colour decodes to the expected
`rgb` string. -/
theorem C4_witness : hex_to_rgb "#0aF109" = some "rgb(10, 241, 9)" := by
  have h := (C4_hex_to_rgb_characterization "#0aF109").2.1 '0' 'a' 'F' '1' '0' '9'
    0 10 15 1 0 9 (by decide) (by decide) (by decide) (by decide) (by decide)
    (by decide) (by decide)
  rw [h]
  rfl

/-! ### Projection lemmas for the content generators -/

lemma match_option_primaryFields (o : Option String) (a : String → PassContent) (b : PassContent) :
    (match o with | some v => a v | none => b).primaryFields
      = match o with | some v => (a v).primaryFields | none => b.primaryFields := by
  cases o <;> rfl

lemma match_option_secondaryFields (o : Option String) (a : String → PassContent) (b : PassContent) :
    (match o with | some v => a v | none => b).secondaryFields
      = match o with | some v => (a v).secondaryFields | none => b.secondaryFields := by
  cases o <;> rfl

lemma option_match_const {α : Sort _} (o : Option String) (x : α) :
    (match o with | some _ => x | none => x) = x := by
  cases o <;> rfl

lemma add_back_fields_primaryFields (cfg : PassConfig) (c : PassContent) (t : Ticket) :
    (add_back_fields cfg c t).primaryFields = c.primaryFields := by
  unfold add_back_fields
  cases truthy t "venueAddress" <;> cases truthy t "description" <;> rfl

lemma add_back_fields_secondaryFields (cfg : PassConfig) (c : PassContent) (t : Ticket) :
    (add_back_fields cfg c t).secondaryFields = c.secondaryFields := by
  unfold add_back_fields
  cases truthy t "venueAddress" <;> cases truthy t "description" <;> rfl

lemma boarding_primaryFields (cfg : PassConfig) (t : Ticket) :
    (generate_boarding_pass_content cfg t baseContent).primaryFields
      = [⟨"origin", pyGetD t "originCity" "FROM", pyGetD t "originCode" "---"⟩,
         ⟨"destination", pyGetD t "destinationCity" "TO", pyGetD t "destinationCode" "---"⟩] := by
  simp only [generate_boarding_pass_content]
  rw [add_back_fields_primaryFields]
  simp only [match_option_primaryFields]
  simp [option_match_const, baseContent]

/-! ## Claim C8 -/

/-- Claim C8: a boarding pass with no origin/destination codes or cities
gets exactly the two primary fields `origin` then `destination` with
values `---` and default labels `FROM`/`TO`; a supplied city name
replaces the corresponding default label. -/
theorem C8_boarding_pass_defaults (cfg : PassConfig) (t : Ticket) :
    (pyGet t "originCode" = none → pyGet t "destinationCode" = none →
      pyGet t "originCity" = none → pyGet t "destinationCity" = none →
      (generate_boarding_pass_content cfg t baseContent).primaryFields
        = [⟨"origin", "FROM", "---"⟩, ⟨"destination", "TO", "---"⟩]) ∧
    (∀ c, pyGet t "originCity" = some c →
      ∃ f2 v, (generate_boarding_pass_content cfg t baseContent).primaryFields
        = [⟨"origin", c, v⟩, f2]) ∧
    (∀ c, pyGet t "destinationCity" = some c →
      ∃ f1 v, (generate_boarding_pass_content cfg t baseContent).primaryFields
        = [f1, ⟨"destination", c, v⟩]) := by
  refine ⟨?_, ?_, ?_⟩
  · intro h1 h2 h3 h4
    rw [boarding_primaryFields]
    simp [pyGetD, h1, h2, h3, h4]
  · intro c hc
    refine ⟨⟨"destination", pyGetD t "destinationCity" "TO", pyGetD t "destinationCode" "---"⟩,
      pyGetD t "originCode" "---", ?_⟩
    rw [boarding_primaryFields]
    simp [pyGetD, hc]
  · intro c hc
    refine ⟨⟨"origin", pyGetD t "originCity" "FROM", pyGetD t "originCode" "---"⟩,
      pyGetD t "destinationCode" "---", ?_⟩
    rw [boarding_primaryFields]
    simp [pyGetD, hc]

/-- Witness for C8 at concrete tickets: the all-default boarding pass and
a ticket supplying an origin city. -/
theorem C8_witness :
    (generate_boarding_pass_content cfg0 [("ticketType", "boardingPass")] baseContent).primaryFields
        = [⟨"origin", "FROM", "---"⟩, ⟨"destination", "TO", "---"⟩]
      ∧ ∃ f2 v, (generate_boarding_pass_content cfg0 [("originCity", "Oslo")] baseContent).primaryFields
        = [⟨"origin", "Oslo", v⟩, f2] :=
  ⟨(C8_boarding_pass_defaults cfg0 [("ticketType", "boardingPass")]).1 rfl rfl rfl rfl,
   (C8_boarding_pass_defaults cfg0 [("originCity", "Oslo")]).2.1 "Oslo" rfl⟩

/-! ## Claim C7 -/

/-- Counterexample to claim C7 as stated: with `couponTitle` equal to
`discountAmount` (not distinct), the code of lines 277-282 still emits
the secondary `title` entry, while the claim says it must not. -/
theorem C7_counterexample :
    (generate_coupon_content cfg0
        [("ticketType", "coupon"), ("couponTitle", "SAVE"), ("discountAmount", "SAVE")]
        baseContent).secondaryFields.filter (fun f => f.key == "title")
      = [⟨"title", "PROMOTION", "SAVE"⟩] := by decide

/-- Claim C7 (amended): the coupon secondary `title` entry is emitted
exactly when both `couponTitle` and `discountAmount` are present and
non-empty — regardless of whether they are distinct — and then carries
the coupon title with label `PROMOTION`. -/
theorem C7_coupon_title_entry (cfg : PassConfig) (t : Ticket) :
    (generate_coupon_content cfg t baseContent).secondaryFields.filter (fun f => f.key == "title")
      = match truthy t "couponTitle", truthy t "discountAmount" with
        | some ct, some _ => [⟨"title", "PROMOTION", ct⟩]
        | _, _ => [] := by
  simp only [generate_coupon_content]
  rw [add_back_fields_secondaryFields]
  simp only [match_option_secondaryFields]
  rcases hct : truthy t "couponTitle" with _ | ct <;>
    rcases hda : truthy t "discountAmount" with _ | da <;>
      rcases hpc : truthy t "promoCode" with _ | pc <;>
        simp [option_match_const, baseContent]

/-! ## Claim C10 -/

/-- Claim C10: for each of the five image roles, an empty-string payload
is falsy in `images.get(...)` and is treated exactly like an absent one —
no decode is attempted, no error is raised, and resolution falls through
to the template/placeholder fallback (icon, logo) or to omission. -/
theorem C10_empty_payload_treated_as_absent (cfg : PassConfig) (env : Env)
    (t : Ticket) (s : String) (imgs : Images) :
    generate_pass cfg env t s { imgs with icon := some "" }
        = generate_pass cfg env t s { imgs with icon := none }
      ∧ generate_pass cfg env t s { imgs with logo := some "" }
        = generate_pass cfg env t s { imgs with logo := none }
      ∧ generate_pass cfg env t s { imgs with background := some "" }
        = generate_pass cfg env t s { imgs with background := none }
      ∧ generate_pass cfg env t s { imgs with strip := some "" }
        = generate_pass cfg env t s { imgs with strip := none }
      ∧ generate_pass cfg env t s { imgs with thumbnail := some "" }
        = generate_pass cfg env t s { imgs with thumbnail := none } :=
  ⟨rfl, rfl, rfl, rfl, rfl⟩

/-! ### Lemmas about the descriptor dictionary -/

lemma lookup_cons_self (k : String) (v : PassVal) (tl : PassJson) :
    ((k, v) :: tl).lookup k = some v := by
  simp [List.lookup]

lemma lookup_cons_ne (k a : String) (b : PassVal) (tl : PassJson) (h : k ≠ a) :
    ((a, b) :: tl).lookup k = tl.lookup k := by
  simp only [List.lookup, beq_false_of_ne h]

lemma removeKey_cons_eq (k : String) (v : PassVal) (tl : PassJson) :
    removeKey k ((k, v) :: tl) = removeKey k tl := by
  simp [removeKey, List.filter_cons]

lemma removeKey_cons_ne (k a : String) (b : PassVal) (tl : PassJson) (h : a ≠ k) :
    removeKey k ((a, b) :: tl) = (a, b) :: removeKey k tl := by
  simp [removeKey, List.filter_cons, h]

lemma contentEntries_cons_true (a : String) (b : PassVal) (tl : PassJson)
    (hb : isContent b = true) :
    contentEntries ((a, b) :: tl) = (a, b) :: contentEntries tl := by
  simp [contentEntries, List.filter_cons, hb]

lemma contentEntries_cons_false (a : String) (b : PassVal) (tl : PassJson)
    (hb : isContent b = false) :
    contentEntries ((a, b) :: tl) = contentEntries tl := by
  simp [contentEntries, List.filter_cons, hb]

lemma dictSet_cons_eq (k : String) (b v : PassVal) (tl : PassJson) :
    dictSet ((k, b) :: tl) k v = (k, v) :: tl := by
  simp [dictSet]

lemma dictSet_cons_ne (a k : String) (b v : PassVal) (tl : PassJson) (h : a ≠ k) :
    dictSet ((a, b) :: tl) k v = (a, b) :: dictSet tl k v := by
  simp [dictSet, h]

lemma lookup_dictSet_self (d : PassJson) (k : String) (v : PassVal) :
    (dictSet d k v).lookup k = some v := by
  induction d with
  | nil => simp [dictSet, List.lookup]
  | cons hd tl ih =>
    obtain ⟨a, b⟩ := hd
    by_cases ha : a = k
    · subst ha
      rw [dictSet_cons_eq, lookup_cons_self]
    · rw [dictSet_cons_ne a k b v tl ha, lookup_cons_ne k a b _ (fun hh => ha hh.symm)]
      exact ih

lemma lookup_dictSet_ne (d : PassJson) (k k' : String) (v : PassVal) (h : k ≠ k') :
    (dictSet d k' v).lookup k = d.lookup k := by
  induction d with
  | nil => simp [dictSet, List.lookup, beq_false_of_ne h]
  | cons hd tl ih =>
    obtain ⟨a, b⟩ := hd
    by_cases ha : a = k'
    · subst ha
      rw [dictSet_cons_eq, lookup_cons_ne k a v tl h, lookup_cons_ne k a b tl h]
    · rw [dictSet_cons_ne a k' b v tl ha]
      by_cases hak : k = a
      · subst hak
        rw [lookup_cons_self, lookup_cons_self]
      · rw [lookup_cons_ne k a b _ hak, lookup_cons_ne k a b tl hak]
        exact ih

lemma removeKey_dictSet_eq (d : PassJson) (k : String) (v : PassVal) :
    removeKey k (dictSet d k v) = removeKey k d := by
  induction d with
  | nil => simp [dictSet, removeKey, List.filter]
  | cons hd tl ih =>
    obtain ⟨a, b⟩ := hd
    by_cases ha : a = k
    · subst ha
      rw [dictSet_cons_eq, removeKey_cons_eq, removeKey_cons_eq]
    · rw [dictSet_cons_ne a k b v tl ha, removeKey_cons_ne k a b _ ha,
        removeKey_cons_ne k a b tl ha, ih]

lemma removeKey_dictSet_ne (d : PassJson) (k k' : String) (v : PassVal) (h : k' ≠ k) :
    removeKey k (dictSet d k' v) = dictSet (removeKey k d) k' v := by
  induction d with
  | nil => simp [dictSet, removeKey, List.filter, h]
  | cons hd tl ih =>
    obtain ⟨a, b⟩ := hd
    by_cases ha : a = k'
    · subst ha
      rw [dictSet_cons_eq, removeKey_cons_ne k a v tl h, removeKey_cons_ne k a b tl h,
        dictSet_cons_eq]
    · rw [dictSet_cons_ne a k' b v tl ha]
      by_cases hak : a = k
      · subst hak
        rw [removeKey_cons_eq, removeKey_cons_eq, ih]
      · rw [removeKey_cons_ne k a b _ hak, removeKey_cons_ne k a b tl hak,
          dictSet_cons_ne a k' b v _ ha, ih]

lemma removeKey_dictSet_congr (k k' : String) (v : PassVal) {X Y : PassJson}
    (h : removeKey k X = removeKey k Y) :
    removeKey k (dictSet X k' v) = removeKey k (dictSet Y k' v) := by
  by_cases he : k' = k
  · subst he
    rw [removeKey_dictSet_eq, removeKey_dictSet_eq, h]
  · rw [removeKey_dictSet_ne _ _ _ _ he, removeKey_dictSet_ne _ _ _ _ he, h]

lemma contentEntries_dictSet_flat (d : PassJson) (k : String) (v : PassVal)
    (hv : isContent v = false) (hd : contentEntries d = []) :
    contentEntries (dictSet d k v) = [] := by
  induction d with
  | nil => simp [dictSet, contentEntries, List.filter, hv]
  | cons hd' tl ih =>
    obtain ⟨a, b⟩ := hd'
    cases hb : isContent b with
    | true =>
      rw [contentEntries_cons_true a b tl hb] at hd
      exact absurd hd (by simp)
    | false =>
      rw [contentEntries_cons_false a b tl hb] at hd
      by_cases ha : a = k
      · subst ha
        rw [dictSet_cons_eq, contentEntries_cons_false a v tl hv]
        exact hd
      · rw [dictSet_cons_ne a k b v tl ha, contentEntries_cons_false a b _ hb]
        exact ih hd

lemma contentEntries_dictSet_content (d : PassJson) (k : String) (c : PassContent)
    (hd : contentEntries d = []) :
    contentEntries (dictSet d k (.content c)) = [(k, .content c)] := by
  induction d with
  | nil => simp [dictSet, contentEntries, List.filter, isContent]
  | cons hd' tl ih =>
    obtain ⟨a, b⟩ := hd'
    cases hb : isContent b with
    | true =>
      rw [contentEntries_cons_true a b tl hb] at hd
      exact absurd hd (by simp)
    | false =>
      rw [contentEntries_cons_false a b tl hb] at hd
      by_cases ha : a = k
      · subst ha
        rw [dictSet_cons_eq, contentEntries_cons_true a (.content c) tl (by simp [isContent]), hd]
      · rw [dictSet_cons_ne a k b _ tl ha, contentEntries_cons_false a b _ hb]
        exact ih hd

lemma contentEntries_dictSet_keep (d : PassJson) (k : String) (v : PassVal)
    (k0 : String) (v0 : PassVal) (hv : isContent v = false) (hne : k ≠ k0)
    (hd : contentEntries d = [(k0, v0)]) :
    contentEntries (dictSet d k v) = [(k0, v0)] := by
  induction d with
  | nil => simp [contentEntries] at hd
  | cons hd' tl ih =>
    obtain ⟨a, b⟩ := hd'
    cases hb : isContent b with
    | true =>
      rw [contentEntries_cons_true a b tl hb] at hd
      rw [List.cons_eq_cons] at hd
      obtain ⟨hab, htl⟩ := hd
      injection hab with h1 h2
      subst h1
      subst h2
      rw [dictSet_cons_ne a k b v tl (fun hh => hne hh.symm),
        contentEntries_cons_true a b _ hb,
        contentEntries_dictSet_flat tl k v hv htl]
    | false =>
      rw [contentEntries_cons_false a b tl hb] at hd
      by_cases ha : a = k
      · subst ha
        rw [dictSet_cons_eq, contentEntries_cons_false a v tl hv]
        exact hd
      · rw [dictSet_cons_ne a k b v tl ha, contentEntries_cons_false a b _ hb]
        exact ih hd

/-! ## Claim C3 -/

/-- Counterexample to claim C3 as stated: a ticket whose
`backgroundColor` is the malformed colour string `"zzzzzz"` makes
`generate_pass_json` raise, because `hex_to_rgb` has no `try` around
`int(_, 16)` (line 523). -/
theorem C3_counterexample :
    generate_pass_json cfg0 "tok" "2025-06-01T12:00:00"
      [("backgroundColor", "zzzzzz")] "SER" = none := by decide

/-- Claim C3 (amended): `generate_pass_json` never raises on malformed
ticket values — unparsable dates and all other bad string fields degrade
to omission or a default — provided the three colour fields (after their
defaults) survive `hex_to_rgb`; a colour whose stripped remainder has
length 6 but is not hex raises `ValueError` through it. -/
theorem C3_no_raise_when_colours_convert (cfg : PassConfig) (tok now : String)
    (t : Ticket) (s : String)
    (hbg : (hex_to_rgb (pyGetD t "backgroundColor" "#1C1C1E")).isSome = true)
    (hfg : (hex_to_rgb (pyGetD t "foregroundColor" "#FFFFFF")).isSome = true)
    (hlc : (hex_to_rgb (pyGetD t "labelColor" "#8E8E93")).isSome = true) :
    (generate_pass_json cfg tok now t s).isSome = true := by
  simp only [generate_pass_json]
  cases h1 : hex_to_rgb (pyGetD t "backgroundColor" "#1C1C1E") <;>
    cases h2 : hex_to_rgb (pyGetD t "foregroundColor" "#FFFFFF") <;>
      cases h3 : hex_to_rgb (pyGetD t "labelColor" "#8E8E93") <;>
        simp_all

/-- Witness for the amended C3: a ticket full of malformed non-colour
data (unparsable date, empty strings, short colour) still produces a
descriptor. -/
theorem C3_witness :
    (generate_pass_json cfg0 "tok" "2025-06-01T12:00:00"
      [("eventDate", "31/12/2025 19:00"), ("eventName", ""), ("foregroundColor", "#12"),
       ("seatRow", "")] "SER").isSome = true :=
  C3_no_raise_when_colours_convert cfg0 "tok" "2025-06-01T12:00:00" _ "SER"
    (by decide) (by decide) (by decide)

/-! ## Claim C5 -/

/-- Claim C5: every successfully generated descriptor has exactly one
type-keyed content block, its key is the ticket's `ticketType`
(defaulting to `eventTicket`), and an unknown ticket type falls back to
the `eventTicket` layout generator. -/
theorem C5_single_content_block (cfg : PassConfig) (tok now : String) (t : Ticket)
    (s : String) (pj : PassJson) (h : generate_pass_json cfg tok now t s = some pj) :
    contentEntries pj = [(pyGetD t "ticketType" "eventTicket",
        .content (generate_pass_content cfg t (pyGetD t "ticketType" "eventTicket")))]
      ∧ pj.lookup (pyGetD t "ticketType" "eventTicket")
          = some (.content (generate_pass_content cfg t (pyGetD t "ticketType" "eventTicket")))
      ∧ (pyGetD t "ticketType" "eventTicket" ∉ knownTicketTypes →
          generate_pass_content cfg t (pyGetD t "ticketType" "eventTicket")
            = generate_event_ticket_content cfg t baseContent) := by
  simp only [generate_pass_json] at h
  cases h1 : hex_to_rgb (pyGetD t "backgroundColor" "#1C1C1E") <;> rw [h1] at h
  · exact absurd h (by simp)
  cases h2 : hex_to_rgb (pyGetD t "foregroundColor" "#FFFFFF") <;> rw [h2] at h
  · exact absurd h (by simp)
  cases h3 : hex_to_rgb (pyGetD t "labelColor" "#8E8E93") <;> rw [h3] at h
  · exact absurd h (by simp)
  next bg fg lc =>
  obtain rfl := (Option.some.inj h).symm
  have hE0 : contentEntries (pass_json_base cfg t s bg fg lc) = [] := by
    simp [pass_json_base, contentEntries, List.filter, isContent]
  have hE1 : contentEntries (add_logo_text t (pass_json_base cfg t s bg fg lc)) = [] := by
    unfold add_logo_text
    cases truthy t "logoText"
    · exact hE0
    · exact contentEntries_dictSet_flat _ _ _ rfl hE0
  have hE2 : contentEntries (add_web_service cfg tok
      (add_logo_text t (pass_json_base cfg t s bg fg lc))) = [] := by
    unfold add_web_service
    cases truthyO cfg.webServiceURL
    · exact hE1
    · exact contentEntries_dictSet_flat _ _ _ rfl (contentEntries_dictSet_flat _ _ _ rfl hE1)
  have hE3 : contentEntries (add_content cfg t (add_web_service cfg tok
      (add_logo_text t (pass_json_base cfg t s bg fg lc))))
        = [(pyGetD t "ticketType" "eventTicket",
            .content (generate_pass_content cfg t (pyGetD t "ticketType" "eventTicket")))] := by
    unfold add_content
    exact contentEntries_dictSet_content _ _ _ hE2
  have hlk3 : (add_content cfg t (add_web_service cfg tok
      (add_logo_text t (pass_json_base cfg t s bg fg lc)))).lookup
        (pyGetD t "ticketType" "eventTicket")
        = some (.content (generate_pass_content cfg t (pyGetD t "ticketType" "eventTicket"))) := by
    unfold add_content
    exact lookup_dictSet_self _ _ _
  refine ⟨?_, ?_, ?_⟩
  · simp only [add_dates]
    split_ifs with h1 h2 h3 h4 h5
    · exact absurd (h2.1.symm.trans h1.1) (by decide)
    · exact absurd (h3.1.symm.trans h1.1) (by decide)
    · exact contentEntries_dictSet_keep _ _ _ _ _ rfl (by rw [h1.1]; decide) hE3
    · exact contentEntries_dictSet_keep _ _ _ _ _ rfl (by rw [h4.1]; decide) hE3
    · exact contentEntries_dictSet_keep _ _ _ _ _ rfl (by rw [h5.1]; decide) hE3
    · exact hE3
  · simp only [add_dates]
    split_ifs with h1 h2 h3 h4 h5
    · exact absurd (h2.1.symm.trans h1.1) (by decide)
    · exact absurd (h3.1.symm.trans h1.1) (by decide)
    · rw [lookup_dictSet_ne _ _ _ _ (by rw [h1.1]; decide)]
      exact hlk3
    · rw [lookup_dictSet_ne _ _ _ _ (by rw [h4.1]; decide)]
      exact hlk3
    · rw [lookup_dictSet_ne _ _ _ _ (by rw [h5.1]; decide)]
      exact hlk3
    · exact hlk3
  · intro hun
    simp only [knownTicketTypes, List.mem_cons, List.mem_singleton, not_or] at hun
    obtain ⟨n1, n2, n3, n4, n5⟩ := hun
    simp only [generate_pass_content, if_neg n1, if_neg n2, if_neg n3, if_neg n4]
    rw [if_neg (by simpa using n5)]

/-- Witness for C5 at a concrete ticket with an unknown type. -/
theorem C5_witness :
    contentEntries ((generate_pass_json cfg0 "tok" "2025-06-01T12:00:00"
        [("ticketType", "membership")] "SER").getD [])
      = [("membership", .content (generate_pass_content cfg0
          [("ticketType", "membership")] "membership"))]
      ∧ generate_pass_content cfg0 [("ticketType", "membership")] "membership"
        = generate_event_ticket_content cfg0 [("ticketType", "membership")] baseContent := by
  have h := C5_single_content_block cfg0 "tok" "2025-06-01T12:00:00"
    [("ticketType", "membership")] "SER"
    ((generate_pass_json cfg0 "tok" "2025-06-01T12:00:00"
        [("ticketType", "membership")] "SER").getD []) (by rfl)
  exact ⟨h.1, h.2.2 (by decide)⟩

/-! ## Claim C9 -/

/-- Counterexample to claim C9 as stated: for the ticket
`{ticketType: "description"}` the content block of line 94 is assigned
under the key `description`, overwriting the description string set at
line 70 — so the descriptor's `description` is not `"Pass"` (nor any
string). -/
theorem C9_counterexample :
    ¬ ((generate_pass_json cfg0 "tok" "2025-06-01T12:00:00"
        [("ticketType", "description")] "SER").bind (fun pj => pj.lookup "description")
      = some (.str "Pass")) := by decide

lemma pyOrS_expectedDescription (t : Ticket) :
    pyOrS (pyGet t "description") (pyOrS (pyGet t "eventName") "Pass")
      = expectedDescription t := by
  unfold pyOrS expectedDescription truthy
  cases pyGet t "description" <;> cases pyGet t "eventName" <;>
    simp <;> split_ifs <;> simp_all

/-- Claim C9 (amended): whenever the effective ticket type is not the
string `"description"` itself, the descriptor's top-level `description`
equals the ticket's `description` when present and non-empty, else its
`eventName` when present and non-empty, else `"Pass"`. -/
theorem C9_description_value (cfg : PassConfig) (tok now : String) (t : Ticket)
    (s : String) (pj : PassJson) (h : generate_pass_json cfg tok now t s = some pj)
    (htt : pyGetD t "ticketType" "eventTicket" ≠ "description") :
    pj.lookup "description" = some (.str (expectedDescription t)) := by
  simp only [generate_pass_json] at h
  cases h1 : hex_to_rgb (pyGetD t "backgroundColor" "#1C1C1E") <;> rw [h1] at h
  · exact absurd h (by simp)
  cases h2 : hex_to_rgb (pyGetD t "foregroundColor" "#FFFFFF") <;> rw [h2] at h
  · exact absurd h (by simp)
  cases h3 : hex_to_rgb (pyGetD t "labelColor" "#8E8E93") <;> rw [h3] at h
  · exact absurd h (by simp)
  next bg fg lc =>
  obtain rfl := (Option.some.inj h).symm
  have hbase : (pass_json_base cfg t s bg fg lc).lookup "description"
      = some (.str (pyOrS (pyGet t "description") (pyOrS (pyGet t "eventName") "Pass"))) := by
    simp [pass_json_base, List.lookup]
  have hE1 : (add_logo_text t (pass_json_base cfg t s bg fg lc)).lookup "description"
      = some (.str (pyOrS (pyGet t "description") (pyOrS (pyGet t "eventName") "Pass"))) := by
    unfold add_logo_text
    cases truthy t "logoText"
    · exact hbase
    · rw [lookup_dictSet_ne _ _ _ _ (by decide)]
      exact hbase
  have hE2 : (add_web_service cfg tok (add_logo_text t
      (pass_json_base cfg t s bg fg lc))).lookup "description"
      = some (.str (pyOrS (pyGet t "description") (pyOrS (pyGet t "eventName") "Pass"))) := by
    unfold add_web_service
    cases truthyO cfg.webServiceURL
    · exact hE1
    · rw [lookup_dictSet_ne _ _ _ _ (by decide), lookup_dictSet_ne _ _ _ _ (by decide)]
      exact hE1
  have hE3 : (add_content cfg t (add_web_service cfg tok (add_logo_text t
      (pass_json_base cfg t s bg fg lc)))).lookup "description"
      = some (.str (pyOrS (pyGet t "description") (pyOrS (pyGet t "eventName") "Pass"))) := by
    unfold add_content
    rw [lookup_dictSet_ne _ _ _ _ (Ne.symm htt)]
    exact hE2
  rw [pyOrS_expectedDescription] at hE3
  simp only [add_dates]
  split_ifs <;>
    (try rw [lookup_dictSet_ne _ _ _ _ (by decide)]) <;>
      (try rw [lookup_dictSet_ne _ _ _ _ (by decide)]) <;>
        exact hE3

/-- Witness for the amended C9: a ticket with only an `eventName`. -/
theorem C9_witness :
    ((generate_pass_json cfg0 "tok" "2025-06-01T12:00:00"
        [("eventName", "Gala")] "SER").getD []).lookup "description"
      = some (.str "Gala") := by
  have h := C9_description_value cfg0 "tok" "2025-06-01T12:00:00" [("eventName", "Gala")]
    "SER" ((generate_pass_json cfg0 "tok" "2025-06-01T12:00:00"
        [("eventName", "Gala")] "SER").getD []) (by rfl) (by decide)
  rw [h]
  rfl

/-! ## Claim C2 -/

lemma to_iso_date_parses (n1 n2 s : String) (h : parsesIso s) :
    to_iso_date n1 s = to_iso_date n2 s := by
  unfold to_iso_date
  unfold parsesIso at h
  cases hp : fromisoformat (replaceZ s)
  · rw [hp] at h
    simp at h
  · simp only [hp]

lemma relevant_value_now_irrel (t : Ticket) (n1 n2 : String)
    (hp : truthy t "isoDate" = none → parsesIso ((pyGet t "eventDate").getD "")) :
    pyOrS (pyGet t "isoDate") (to_iso_date n1 ((pyGet t "eventDate").getD ""))
      = pyOrS (pyGet t "isoDate") (to_iso_date n2 ((pyGet t "eventDate").getD "")) := by
  unfold pyOrS
  cases hio : pyGet t "isoDate" with
  | none => exact to_iso_date_parses _ _ _ (hp (by simp [truthy, hio]))
  | some si =>
    dsimp only
    split_ifs with hsi
    · exact to_iso_date_parses _ _ _ (hp (by simp [truthy, hio, hsi]))
    · rfl

lemma add_dates_now_irrel (t : Ticket) (n1 n2 : String) (pj : PassJson)
    (hd : datesDeterministic t) :
    add_dates t n1 pj = add_dates t n2 pj := by
  obtain ⟨hdA, hdB, hdC⟩ := hd
  simp only [add_dates]
  split_ifs with h1 h2 h3 h4 h5
  · rw [relevant_value_now_irrel t n1 n2 (hdA h2.1 h2.2),
      to_iso_date_parses n1 n2 _ (hdC h1.1 h1.2)]
  · rw [to_iso_date_parses n1 n2 ((pyGet t "departureTime").getD "") (hdB h3.1 h3.2),
      to_iso_date_parses n1 n2 ((pyGet t "expirationDate").getD "") (hdC h1.1 h1.2)]
  · rw [to_iso_date_parses n1 n2 _ (hdC h1.1 h1.2)]
  · rw [relevant_value_now_irrel t n1 n2 (hdA h4.1 h4.2)]
  · rw [to_iso_date_parses n1 n2 _ (hdB h5.1 h5.2)]
  · rfl

lemma add_web_service_removeToken (cfg : PassConfig) (t1 t2 : String) (pj : PassJson) :
    removeKey "authenticationToken" (add_web_service cfg t1 pj)
      = removeKey "authenticationToken" (add_web_service cfg t2 pj) := by
  unfold add_web_service
  cases truthyO cfg.webServiceURL
  · rfl
  · rw [removeKey_dictSet_eq, removeKey_dictSet_eq]

lemma removeKey_add_content_congr (cfg : PassConfig) (t : Ticket) (k : String)
    {X Y : PassJson} (h : removeKey k X = removeKey k Y) :
    removeKey k (add_content cfg t X) = removeKey k (add_content cfg t Y) := by
  unfold add_content
  exact removeKey_dictSet_congr _ _ _ h

lemma removeKey_add_dates_congr (t : Ticket) (now : String) (k : String)
    {X Y : PassJson} (h : removeKey k X = removeKey k Y) :
    removeKey k (add_dates t now X) = removeKey k (add_dates t now Y) := by
  simp only [add_dates]
  split_ifs
  · exact removeKey_dictSet_congr _ _ _ (removeKey_dictSet_congr _ _ _ h)
  · exact removeKey_dictSet_congr _ _ _ (removeKey_dictSet_congr _ _ _ h)
  · exact removeKey_dictSet_congr _ _ _ h
  · exact removeKey_dictSet_congr _ _ _ h
  · exact removeKey_dictSet_congr _ _ _ h
  · exact h

lemma icon_files_env (tok now : String) (env : Env) (imgs : Images) :
    icon_files { env with token := tok, now := now } imgs = icon_files env imgs := rfl

lemma logo_files_env (tok now : String) (env : Env) (imgs : Images) :
    logo_files { env with token := tok, now := now } imgs = logo_files env imgs := rfl

lemma background_files_env (tok now : String) (env : Env) (tt : String) (imgs : Images) :
    background_files { env with token := tok, now := now } tt imgs
      = background_files env tt imgs := rfl

lemma strip_files_env (tok now : String) (env : Env) (tt : String) (imgs : Images) :
    strip_files { env with token := tok, now := now } tt imgs = strip_files env tt imgs := rfl

lemma thumbnail_files_env (tok now : String) (env : Env) (imgs : Images) :
    thumbnail_files { env with token := tok, now := now } imgs = thumbnail_files env imgs := rfl

lemma generate_pass_json_no_ws (cfg : PassConfig) (hws : truthyO cfg.webServiceURL = none)
    (tok1 now1 tok2 now2 : String) (t : Ticket) (s : String) (hd : datesDeterministic t) :
    generate_pass_json cfg tok1 now1 t s = generate_pass_json cfg tok2 now2 t s := by
  have hweb : ∀ (tok : String) (pj : PassJson), add_web_service cfg tok pj = pj := by
    intro tok pj
    unfold add_web_service
    rw [hws]
  simp only [generate_pass_json]
  cases hex_to_rgb (pyGetD t "backgroundColor" "#1C1C1E") <;>
    cases hex_to_rgb (pyGetD t "foregroundColor" "#FFFFFF") <;>
      cases hex_to_rgb (pyGetD t "labelColor" "#8E8E93") <;> try rfl
  exact congrArg some (by
    rw [hweb tok1, hweb tok2, add_dates_now_irrel t now1 now2 _ hd])

/-- Counterexample to claim C2 as stated: two calls with the identical
ticket `{eventDate: "garbage"}`, identical serial and no web-service URL
(so no token at all) still produce different `pass.json` descriptors,
because the unparsable date sends `to_iso_date` to the
`datetime.now().isoformat()` fallback of line 557, which differs between
the calls. -/
theorem C2_counterexample :
    ¬ (generate_pass_json cfg0 "tok" "2025-01-01T10:00:00" [("eventDate", "garbage")] "SER"
      = generate_pass_json cfg0 "tok" "2025-01-02T10:00:00" [("eventDate", "garbage")] "SER") := by
  decide

/-- Claim C2 (amended): for identical ticket, serial and images, two
generation calls agree on `pass.json` except for the per-call
`authenticationToken` entry — and, when no web-service URL is configured,
produce entirely identical bundles (`manifest.json` included) — provided
every date string the call feeds to `to_iso_date` parses; an unparsable
`eventDate`/`departureTime`/`expirationDate` makes the corresponding
`relevantDate`/`expirationDate` entry depend on the wall clock and differ
between calls too. -/
theorem C2_idempotence_modulo_token (cfg : PassConfig) (t : Ticket) (s : String)
    (tok1 now1 tok2 now2 : String) (hd : datesDeterministic t) :
    Option.map (removeKey "authenticationToken") (generate_pass_json cfg tok1 now1 t s)
      = Option.map (removeKey "authenticationToken") (generate_pass_json cfg tok2 now2 t s)
    ∧ (truthyO cfg.webServiceURL = none →
        ∀ (env : Env) (imgs : Images),
          generate_pass cfg { env with token := tok1, now := now1 } t s imgs
            = generate_pass cfg { env with token := tok2, now := now2 } t s imgs) := by
  constructor
  · simp only [generate_pass_json]
    cases hex_to_rgb (pyGetD t "backgroundColor" "#1C1C1E") <;>
      cases hex_to_rgb (pyGetD t "foregroundColor" "#FFFFFF") <;>
        cases hex_to_rgb (pyGetD t "labelColor" "#8E8E93") <;> try rfl
    next bg fg lc =>
      have hbig :
          removeKey "authenticationToken" (add_dates t now1 (add_content cfg t
              (add_web_service cfg tok1 (add_logo_text t (pass_json_base cfg t s bg fg lc)))))
            = removeKey "authenticationToken" (add_dates t now2 (add_content cfg t
              (add_web_service cfg tok2 (add_logo_text t (pass_json_base cfg t s bg fg lc))))) := by
        calc
          removeKey "authenticationToken" (add_dates t now1 (add_content cfg t
              (add_web_service cfg tok1 (add_logo_text t (pass_json_base cfg t s bg fg lc)))))
            = removeKey "authenticationToken" (add_dates t now1 (add_content cfg t
                (add_web_service cfg tok2 (add_logo_text t (pass_json_base cfg t s bg fg lc))))) :=
              removeKey_add_dates_congr _ _ _ (removeKey_add_content_congr _ _ _
                (add_web_service_removeToken cfg tok1 tok2 _))
          _ = removeKey "authenticationToken" (add_dates t now2 (add_content cfg t
                (add_web_service cfg tok2 (add_logo_text t (pass_json_base cfg t s bg fg lc))))) := by
              rw [add_dates_now_irrel t now1 now2 _ hd]
      exact congrArg some hbig
  · intro hws env imgs
    have hpj := generate_pass_json_no_ws cfg hws tok1 now1 tok2 now2 t s hd
    dsimp only [generate_pass]
    rw [hpj]
    simp only [icon_files_env, logo_files_env, background_files_env, strip_files_env,
      thumbnail_files_env]

/-- Witness for the amended C2: with a web-service URL configured and a
parseable event date, two calls with different tokens and clocks agree on
everything but the token. -/
theorem C2_witness :
    Option.map (removeKey "authenticationToken")
        (generate_pass_json cfgWS "tokA" "2025-01-01T10:00:00"
          [("ticketType", "eventTicket"), ("eventDate", "2025-12-31T19:00:00Z")] "SER")
      = Option.map (removeKey "authenticationToken")
        (generate_pass_json cfgWS "tokB" "2025-01-02T10:00:00"
          [("ticketType", "eventTicket"), ("eventDate", "2025-12-31T19:00:00Z")] "SER") :=
  (C2_idempotence_modulo_token cfgWS
    [("ticketType", "eventTicket"), ("eventDate", "2025-12-31T19:00:00Z")] "SER"
    "tokA" "2025-01-01T10:00:00" "tokB" "2025-01-02T10:00:00"
    (by unfold datesDeterministic parsesIso; decide)).1

/-! ## Claim C6 -/

/-- Counterexample to claim C6 as stated: a coupon ticket with a
`background` payload that is present but invalid (here the decoder
rejects every payload) still yields a bundle, because line 486 only
decodes `background` when the ticket type is `eventTicket` — the invalid
payload is silently ignored, not a hard error. -/
theorem C6_counterexample :
    (generate_pass cfg0 envRejectB64 [("ticketType", "coupon")] "SER"
      ⟨none, none, some "not-base64!", none, none⟩).isSome = true := by decide

/-- Claim C6 (amended): when a caller-supplied payload that the pipeline
actually decodes fails Base64 decoding — icon, logo or thumbnail whenever
present and non-empty, background only for effective ticket type
`eventTicket`, strip only for `coupon`/`storeCard` — the whole
`generate_pass` call raises and no bundle (not even a partial one) is
returned; payloads skipped by the type condition are ignored. -/
theorem C6_decode_failure_aborts (cfg : PassConfig) (env : Env) (t : Ticket)
    (s : String) (imgs : Images)
    (h : (∃ p, truthyO imgs.icon = some p ∧ env.b64 p = none)
      ∨ (∃ p, truthyO imgs.logo = some p ∧ env.b64 p = none)
      ∨ (pyGetD t "ticketType" "eventTicket" = "eventTicket"
          ∧ ∃ p, truthyO imgs.background = some p ∧ env.b64 p = none)
      ∨ ((pyGetD t "ticketType" "eventTicket" = "coupon"
            ∨ pyGetD t "ticketType" "eventTicket" = "storeCard")
          ∧ ∃ p, truthyO imgs.strip = some p ∧ env.b64 p = none)
      ∨ (∃ p, truthyO imgs.thumbnail = some p ∧ env.b64 p = none)) :
    generate_pass cfg env t s imgs = none := by
  simp only [generate_pass]
  cases hpj : generate_pass_json cfg env.token env.now t s
  · rfl
  rcases h with ⟨p, hp, hb⟩ | ⟨p, hp, hb⟩ | ⟨htt, p, hp, hb⟩ | ⟨htt, p, hp, hb⟩ | ⟨p, hp, hb⟩
  · have hic : icon_files env imgs = none := by
      simp only [icon_files, hp, hb]
    rw [hic]
  · have hlg : logo_files env imgs = none := by
      simp only [logo_files, hp, hb]
    cases icon_files env imgs <;> rw [hlg]
  · have hbg : background_files env (pyGetD t "ticketType" "eventTicket") imgs = none := by
      simp only [background_files, if_pos htt, hp, hb]
      rfl
    cases icon_files env imgs <;> cases logo_files env imgs <;> rw [hbg]
  · have hst : strip_files env (pyGetD t "ticketType" "eventTicket") imgs = none := by
      simp only [strip_files, if_pos htt, hp, hb]
      rfl
    cases icon_files env imgs <;> cases logo_files env imgs <;>
      cases background_files env (pyGetD t "ticketType" "eventTicket") imgs <;>
        rw [hst]
  · have hth : thumbnail_files env imgs = none := by
      simp only [thumbnail_files, hp, hb]
      rfl
    cases icon_files env imgs <;> cases logo_files env imgs <;>
      cases background_files env (pyGetD t "ticketType" "eventTicket") imgs <;>
        cases strip_files env (pyGetD t "ticketType" "eventTicket") imgs <;>
          rw [hth]

/-- Witness for the amended C6: an invalid icon payload aborts the call. -/
theorem C6_witness :
    generate_pass cfg0 envRejectB64 [] "SER" ⟨some "x", none, none, none, none⟩ = none :=
  C6_decode_failure_aborts cfg0 envRejectB64 [] "SER" ⟨some "x", none, none, none, none⟩
    (Or.inl ⟨"x", rfl, rfl⟩)

/-! ## Claim C1 -/

lemma icon_files_names (env : Env) (imgs : Images) (fs : List (String × Bytes))
    (h : icon_files env imgs = some fs) :
    fs.map Prod.fst = ["icon.png", "icon@2x.png"] := by
  unfold icon_files at h
  rcases h1 : truthyO imgs.icon with _ | p <;> (rw [h1] at h; dsimp only at h)
  · rcases h2 : env.iconTemplate with _ | d <;> (rw [h2] at h; try dsimp only at h) <;>
      (obtain rfl := Option.some.inj h; rfl)
  · cases h2 : env.b64 p <;> (rw [h2] at h; try dsimp only at h)
    · exact absurd h (by simp)
    · obtain rfl := Option.some.inj h
      rfl

lemma logo_files_names (env : Env) (imgs : Images) (fs : List (String × Bytes))
    (h : logo_files env imgs = some fs) :
    fs.map Prod.fst = ["logo.png", "logo@2x.png"] ∨ fs.map Prod.fst = [] := by
  unfold logo_files at h
  rcases h1 : truthyO imgs.logo with _ | p <;> (rw [h1] at h; dsimp only at h)
  · rcases h2 : env.logoTemplate with _ | d <;> (rw [h2] at h; try dsimp only at h)
    · right
      obtain rfl := Option.some.inj h
      rfl
    · left
      obtain rfl := Option.some.inj h
      rfl
  · cases h2 : env.b64 p <;> (rw [h2] at h; try dsimp only at h)
    · exact absurd h (by simp)
    · left
      obtain rfl := Option.some.inj h
      rfl

lemma background_files_names (env : Env) (tt : String) (imgs : Images)
    (fs : List (String × Bytes)) (h : background_files env tt imgs = some fs) :
    fs.map Prod.fst = ["background.png", "background@2x.png"] ∨ fs.map Prod.fst = [] := by
  unfold background_files at h
  split_ifs at h
  · rcases h1 : truthyO imgs.background with _ | p <;> (rw [h1] at h; dsimp only at h)
    · right
      obtain rfl := Option.some.inj h
      rfl
    · cases h2 : env.b64 p <;> (rw [h2] at h; try dsimp only at h)
      · exact absurd h (by simp)
      · left
        obtain rfl := Option.some.inj h
        rfl
  · right
    obtain rfl := Option.some.inj h
    rfl

lemma strip_files_names (env : Env) (tt : String) (imgs : Images)
    (fs : List (String × Bytes)) (h : strip_files env tt imgs = some fs) :
    fs.map Prod.fst = ["strip.png", "strip@2x.png"] ∨ fs.map Prod.fst = [] := by
  unfold strip_files at h
  split_ifs at h
  · rcases h1 : truthyO imgs.strip with _ | p <;> (rw [h1] at h; dsimp only at h)
    · right
      obtain rfl := Option.some.inj h
      rfl
    · cases h2 : env.b64 p <;> (rw [h2] at h; try dsimp only at h)
      · exact absurd h (by simp)
      · left
        obtain rfl := Option.some.inj h
        rfl
  · right
    obtain rfl := Option.some.inj h
    rfl

lemma thumbnail_files_names (env : Env) (imgs : Images) (fs : List (String × Bytes))
    (h : thumbnail_files env imgs = some fs) :
    fs.map Prod.fst = ["thumbnail.png", "thumbnail@2x.png"] ∨ fs.map Prod.fst = [] := by
  unfold thumbnail_files at h
  rcases h1 : truthyO imgs.thumbnail with _ | p <;> (rw [h1] at h; dsimp only at h)
  · right
    obtain rfl := Option.some.inj h
    rfl
  · cases h2 : env.b64 p <;> (rw [h2] at h; try dsimp only at h)
    · exact absurd h (by simp)
    · left
      obtain rfl := Option.some.inj h
      rfl

lemma create_manifest_names (f : Bytes → String) (files : List (String × Bytes)) :
    (create_manifest f files).map Prod.fst = files.map Prod.fst := by
  induction files with
  | nil => rfl
  | cons hd tl ih => simp [create_manifest, ih]

lemma create_manifest_lookup (f : Bytes → String) :
    ∀ (files : List (String × Bytes)), (files.map Prod.fst).Nodup →
      ∀ n c, (n, c) ∈ files → (create_manifest f files).lookup n = some (f c) := by
  intro files
  induction files with
  | nil =>
    intro _ n c hm
    simp at hm
  | cons hd tl ih =>
    intro hnd n c hm
    obtain ⟨a, b⟩ := hd
    simp only [List.map_cons, List.nodup_cons] at hnd
    obtain ⟨hna, hndtl⟩ := hnd
    rcases List.mem_cons.mp hm with he | htl
    · rw [Prod.mk.injEq] at he
      obtain ⟨rfl, rfl⟩ := he
      simp [create_manifest, List.lookup]
    · have hne : n ≠ a := by
        intro heq
        subst heq
        exact hna (List.mem_map.mpr ⟨(n, c), htl, rfl⟩)
      simp only [create_manifest, List.map_cons, List.lookup, beq_false_of_ne hne]
      exact ih hndtl n c htl

/-- Claim C1: for every bundle returned by `generate_pass`, the manifest
built by `create_manifest` and embedded as `manifest.json` has exactly
one entry per bundle file except `manifest.json` and `signature`
themselves (which are appended afterwards and never hashed), and each
entry's value is the SHA-1 hex digest of that file's exact byte
content. -/
theorem C1_manifest_covers_bundle (cfg : PassConfig) (env : Env) (t : Ticket)
    (s : String) (imgs : Images) (bundle : List (String × Bytes))
    (h : generate_pass cfg env t s imgs = some bundle) :
    ∃ pre mj sig,
      bundle = pre ++ [("manifest.json", mj), ("signature", sig)]
      ∧ mj = env.dumpsManifest (create_manifest env.sha1 pre)
      ∧ (pre.map Prod.fst).Nodup
      ∧ "manifest.json" ∉ pre.map Prod.fst
      ∧ "signature" ∉ pre.map Prod.fst
      ∧ (create_manifest env.sha1 pre).map Prod.fst = pre.map Prod.fst
      ∧ ∀ n c, (n, c) ∈ pre → (create_manifest env.sha1 pre).lookup n = some (env.sha1 c) := by
  simp only [generate_pass] at h
  cases hpj : generate_pass_json cfg env.token env.now t s <;> (rw [hpj] at h; try dsimp only at h)
  · exact absurd h (by simp)
  next pj =>
  cases hic : icon_files env imgs <;> (rw [hic] at h; try dsimp only at h)
  · exact absurd h (by simp)
  next icons =>
  cases hlg : logo_files env imgs <;> (rw [hlg] at h; try dsimp only at h)
  · exact absurd h (by simp)
  next logos =>
  cases hbg : background_files env (pyGetD t "ticketType" "eventTicket") imgs <;> (rw [hbg] at h; try dsimp only at h)
  · exact absurd h (by simp)
  next bgs =>
  cases hst : strip_files env (pyGetD t "ticketType" "eventTicket") imgs <;> (rw [hst] at h; try dsimp only at h)
  · exact absurd h (by simp)
  next strips =>
  cases hth : thumbnail_files env imgs <;> (rw [hth] at h; try dsimp only at h)
  · exact absurd h (by simp)
  next thumbs =>
  cases hsg : env.sign (env.dumpsManifest (create_manifest env.sha1
      (("pass.json", env.dumps pj) :: (icons ++ logos ++ bgs ++ strips ++ thumbs)))) <;> (rw [hsg] at h; try dsimp only at h)
  · exact absurd h (by simp)
  next sig =>
  obtain rfl := (Option.some.inj h).symm
  have hnames : (("pass.json", env.dumps pj) :: (icons ++ logos ++ bgs ++ strips ++ thumbs)).map
      Prod.fst = "pass.json" :: (icons.map Prod.fst ++ logos.map Prod.fst ++ bgs.map Prod.fst
        ++ strips.map Prod.fst ++ thumbs.map Prod.fst) := by
    simp [List.map_append]
  have s1 : List.Sublist (icons.map Prod.fst) ["icon.png", "icon@2x.png"] := by
    rw [icon_files_names env imgs icons hic]
  have s2 : List.Sublist (logos.map Prod.fst) ["logo.png", "logo@2x.png"] := by
    rcases logo_files_names env imgs logos hlg with hh | hh <;> rw [hh]
    exact List.nil_sublist _
  have s3 : List.Sublist (bgs.map Prod.fst) ["background.png", "background@2x.png"] := by
    rcases background_files_names env _ imgs bgs hbg with hh | hh <;> rw [hh]
    exact List.nil_sublist _
  have s4 : List.Sublist (strips.map Prod.fst) ["strip.png", "strip@2x.png"] := by
    rcases strip_files_names env _ imgs strips hst with hh | hh <;> rw [hh]
    exact List.nil_sublist _
  have s5 : List.Sublist (thumbs.map Prod.fst) ["thumbnail.png", "thumbnail@2x.png"] := by
    rcases thumbnail_files_names env imgs thumbs hth with hh | hh <;> rw [hh]
    exact List.nil_sublist _
  have hsub : List.Sublist ((("pass.json", env.dumps pj)
      :: (icons ++ logos ++ bgs ++ strips ++ thumbs)).map Prod.fst) assetNameOrder := by
    rw [hnames, show assetNameOrder = "pass.json" :: (["icon.png", "icon@2x.png"]
      ++ ["logo.png", "logo@2x.png"] ++ ["background.png", "background@2x.png"]
      ++ ["strip.png", "strip@2x.png"] ++ ["thumbnail.png", "thumbnail@2x.png"]) from rfl]
    exact List.Sublist.cons₂ _ ((((s1.append s2).append s3).append s4).append s5)
  have hnd : ((("pass.json", env.dumps pj)
      :: (icons ++ logos ++ bgs ++ strips ++ thumbs)).map Prod.fst).Nodup :=
    List.Nodup.sublist hsub (by decide)
  refine ⟨("pass.json", env.dumps pj) :: (icons ++ logos ++ bgs ++ strips ++ thumbs),
    env.dumpsManifest (create_manifest env.sha1 (("pass.json", env.dumps pj)
      :: (icons ++ logos ++ bgs ++ strips ++ thumbs))), sig, rfl, rfl, hnd, ?_, ?_, ?_, ?_⟩
  · intro hmem
    exact absurd (hsub.subset hmem) (by decide)
  · intro hmem
    exact absurd (hsub.subset hmem) (by decide)
  · exact create_manifest_names env.sha1 _
  · intro n c hm
    exact create_manifest_lookup env.sha1 _ hnd n c hm

/-- Witness for C1 at a concrete generation call (no caller images, no
template files, so the placeholder icon is used). -/
theorem C1_witness :
    ∃ pre mj sig,
      ((generate_pass cfg0 env0 [] "SER" noImages).getD [])
          = pre ++ [("manifest.json", mj), ("signature", sig)]
        ∧ mj = env0.dumpsManifest (create_manifest env0.sha1 pre)
        ∧ (pre.map Prod.fst).Nodup
        ∧ "manifest.json" ∉ pre.map Prod.fst
        ∧ "signature" ∉ pre.map Prod.fst
        ∧ (create_manifest env0.sha1 pre).map Prod.fst = pre.map Prod.fst
        ∧ ∀ n c, (n, c) ∈ pre → (create_manifest env0.sha1 pre).lookup n
            = some (env0.sha1 c) :=
  C1_manifest_covers_bundle cfg0 env0 [] "SER" noImages
    ((generate_pass cfg0 env0 [] "SER" noImages).getD []) (by rfl)

end PassCard
